import Mathlib

/-!
A verification development for the `vimeo` Python client library
(`src/vimeo/__init__.py`): a shallow embedding of its OAuth 1.0a request
signing, request building, response caching, auth flow and upload
orchestration, together with theorems settling the specified properties.

Python dicts are embedded as association lists whose list order stands for
the dict's iteration order; dict assignment is `dinsert` (update in place or
append), dict lookup is `alookup`.  Machine integers do not occur; the
hashes (SHA-1 / MD5) are computed over byte lists (`List Nat`, each entry a
byte) with explicit `% 2 ^ 32` arithmetic.  Fallible Python code (KeyError,
TypeError, NameError, ...) is embedded with `Except` / explicit error
constructors.
-/

/-! ## Association-list model of Python dicts -/

/-- Python dict assignment `d[k] = v`: replace the value of an existing key
in place, otherwise append the new pair at the end. -/
def dinsert {κ α : Type} [DecidableEq κ] : List (κ × α) → κ → α → List (κ × α)
  | [], k, v => [(k, v)]
  | (a, b) :: t, k, v => if a = k then (a, v) :: t else (a, b) :: dinsert t k v

/-- Python dict lookup `d.get(k)` / `d[k]` (presence reported by `Option`). -/
def alookup {κ α : Type} [DecidableEq κ] : List (κ × α) → κ → Option α
  | [], _ => none
  | (a, b) :: t, k => if a = k then some b else alookup t k

/-- `dict(items)`: build a dict from a pair list, later duplicates winning. -/
def dictOfItems {κ α : Type} [DecidableEq κ] (l : List (κ × α)) : List (κ × α) :=
  l.foldl (fun d kv => dinsert d kv.1 kv.2) []

/-! ## Python string primitives used by the library -/

/-- `str.startswith(pre)` on Python byte strings. -/
def pyStartsWith (s pre : String) : Bool :=
  pre.data.isPrefixOf s.data

/-- `str.upper()` on one ASCII character. -/
def pyUpperChar (c : Char) : Char :=
  if 'a' ≤ c ∧ c ≤ 'z' then Char.ofNat (c.toNat - 32) else c

/-- Python 2 `str.upper()` (byte strings: ASCII case mapping). -/
def pyUpper (s : String) : String :=
  ⟨s.data.map pyUpperChar⟩

/-- The characters Python 2 `urllib.quote` never encodes
(`always_safe`: letters, digits, `_`, `.`, `-`).  Note that `~` is *not*
in this set. -/
def pyAlwaysSafe (c : Char) : Bool :=
  c.isAlpha || c.isDigit || c = '_' || c = '.' || c = '-'

/-- Upper-case hexadecimal digit. -/
def hexUpChar (n : Nat) : Char :=
  if n < 10 then Char.ofNat (48 + n) else Char.ofNat (55 + n)

/-- Lower-case hexadecimal digit. -/
def hexLowChar (n : Nat) : Char :=
  if n < 10 then Char.ofNat (48 + n) else Char.ofNat (87 + n)

/-- `"%%%02X" % ord(c)` for a byte value. -/
def byteHexUp (n : Nat) : String :=
  ⟨['%', hexUpChar (n / 16 % 16), hexUpChar (n % 16)]⟩

/-- One character of `urllib.quote(s, safe)`, where `safeExtra` is the
`safe` argument (in addition to `always_safe`). -/
def pyQuoteChar (safeExtra : List Char) (c : Char) : String :=
  if pyAlwaysSafe c || safeExtra.contains c then String.singleton c
  else byteHexUp c.toNat

/-- Python 2 `urllib.quote(s, safe = '')`. -/
def pyQuote (s : String) : String :=
  String.join (s.data.map (pyQuoteChar []))

/-- Python 2 `urllib.quote_plus(s)` (with the default `safe = ''` that
`urllib.urlencode` uses): if the string contains a space, quote with space
kept safe and then turn spaces into `+`; otherwise plain `quote`. -/
def pyQuotePlus (s : String) : String :=
  if s.data.contains ' ' then
    (String.join (s.data.map (pyQuoteChar [' ']))).replace " " "+"
  else pyQuote s

/-- `urllib.urlencode` over a pair sequence (for a dict the sequence is its
iteration order): `quote_plus(str(k)) + '=' + quote_plus(str(v))`, joined
with `&`.  Values are already rendered to strings here. -/
def pyUrlencode (l : List (String × String)) : String :=
  String.intercalate "&" (l.map fun kv => pyQuotePlus kv.1 ++ "=" ++ pyQuotePlus kv.2)

/-- Hexadecimal value of one character, as accepted by `int(c, 16)`. -/
def hexVal (c : Char) : Option Nat :=
  if '0' ≤ c ∧ c ≤ '9' then some (c.toNat - 48)
  else if 'a' ≤ c ∧ c ≤ 'f' then some (c.toNat - 87)
  else if 'A' ≤ c ∧ c ≤ 'F' then some (c.toNat - 70)
  else none

/-- One fragment of `urllib.unquote`: a piece that followed a `%`.  Python
tries `chr(int(item[:2], 16)) + item[2:]` and falls back to `'%' + item`. -/
def pyUnquotePiece (item : String) : String :=
  match item.data with
  | c1 :: c2 :: rest =>
    match hexVal c1, hexVal c2 with
    | some h, some l => ⟨Char.ofNat (16 * h + l) :: rest⟩
    | _, _ => "%" ++ item
  | [c1] =>
    match hexVal c1 with
    | some h => ⟨[Char.ofNat h]⟩
    | none => "%" ++ item
  | [] => "%"

/-- Python 2 `urllib.unquote`: split on `%` and decode each following
fragment. -/
def pyUnquote (s : String) : String :=
  match s.splitOn "%" with
  | [] => s
  | h :: t => h ++ String.join (t.map pyUnquotePiece)

/-! ## Byte-level hash primitives (`hashlib.sha1`, `hashlib.md5`,
`hmac`, `binascii.b2a_base64`), the external routines the library calls.
Bytes are `Nat`s below 256; words are `Nat`s reduced mod `2 ^ 32`. -/

/-- Truncate to a 32-bit word. -/
def u32 (n : Nat) : Nat := n % 4294967296

/-- 32-bit left rotation. -/
def rotl32 (s x : Nat) : Nat := u32 ((x <<< s) ||| (x >>> (32 - s)))

/-- Big-endian bytes of a 32-bit word. -/
def be32 (n : Nat) : List Nat :=
  [n >>> 24 % 256, n >>> 16 % 256, n >>> 8 % 256, n % 256]

/-- Big-endian bytes of a 64-bit length field. -/
def be64Bytes (n : Nat) : List Nat :=
  [n >>> 56 % 256, n >>> 48 % 256, n >>> 40 % 256, n >>> 32 % 256,
   n >>> 24 % 256, n >>> 16 % 256, n >>> 8 % 256, n % 256]

/-- Little-endian bytes of a 32-bit word. -/
def le32 (n : Nat) : List Nat :=
  [n % 256, n >>> 8 % 256, n >>> 16 % 256, n >>> 24 % 256]

/-- Little-endian bytes of a 64-bit length field. -/
def le64Bytes (n : Nat) : List Nat :=
  [n % 256, n >>> 8 % 256, n >>> 16 % 256, n >>> 24 % 256,
   n >>> 32 % 256, n >>> 40 % 256, n >>> 48 % 256, n >>> 56 % 256]

/-- Split a byte list into 64-byte blocks. -/
def chunk64 : List Nat → List (List Nat)
  | [] => []
  | a :: t => (a :: t).take 64 :: chunk64 ((a :: t).drop 64)
termination_by l => l.length
decreasing_by simp [List.length_drop]; omega

/-- Number of zero bytes of Merkle–Damgård padding after the `0x80` byte. -/
def padZeroLen (msgLen : Nat) : Nat := (55 + 64 - msgLen % 64) % 64

/-- SHA-1 padding (big-endian bit length). -/
def sha1Pad (msg : List Nat) : List Nat :=
  msg ++ 0x80 :: List.replicate (padZeroLen msg.length) 0 ++ be64Bytes (8 * msg.length)

/-- 16 big-endian message words of one block. -/
def beWords16 (block : List Nat) : List Nat :=
  (List.range 16).map fun i =>
    (block.getD (4 * i) 0 <<< 24) ||| (block.getD (4 * i + 1) 0 <<< 16) |||
    (block.getD (4 * i + 2) 0 <<< 8) ||| block.getD (4 * i + 3) 0

/-- SHA-1 message schedule: extend 16 words to 80. -/
def sha1Sched (w16 : List Nat) : List Nat :=
  (List.range 64).foldl
    (fun w _ =>
      let n := w.length
      w ++ [rotl32 1 (w.getD (n - 3) 0 ^^^ w.getD (n - 8) 0 ^^^
                      w.getD (n - 14) 0 ^^^ w.getD (n - 16) 0)])
    w16

/-- One SHA-1 round. -/
def sha1Step (st : Nat × Nat × Nat × Nat × Nat) (iw : Nat × Nat) :
    Nat × Nat × Nat × Nat × Nat :=
  let (a, b, c, d, e) := st
  let (i, w) := iw
  let f :=
    if i < 20 then (b &&& c) ||| ((b ^^^ 0xFFFFFFFF) &&& d)
    else if i < 40 then b ^^^ c ^^^ d
    else if i < 60 then (b &&& c) ||| (b &&& d) ||| (c &&& d)
    else b ^^^ c ^^^ d
  let k :=
    if i < 20 then 0x5A827999
    else if i < 40 then 0x6ED9EBA1
    else if i < 60 then 0x8F1BBCDC
    else 0xCA62C1D6
  (u32 (rotl32 5 a + f + e + k + w), a, rotl32 30 b, c, d)

/-- SHA-1 compression of one 64-byte block into the chaining state. -/
def sha1Compress (h : List Nat) (block : List Nat) : List Nat :=
  let w := sha1Sched (beWords16 block)
  let st0 := (h.getD 0 0, h.getD 1 0, h.getD 2 0, h.getD 3 0, h.getD 4 0)
  let res := w.enum.foldl sha1Step st0
  [u32 (h.getD 0 0 + res.1), u32 (h.getD 1 0 + res.2.1), u32 (h.getD 2 0 + res.2.2.1),
   u32 (h.getD 3 0 + res.2.2.2.1), u32 (h.getD 4 0 + res.2.2.2.2)]

/-- `hashlib.sha1(msg).digest()` as a 20-byte list. -/
def sha1 (msg : List Nat) : List Nat :=
  (((chunk64 (sha1Pad msg)).foldl sha1Compress
      [0x67452301, 0xEFCDAB89, 0x98BADCFE, 0x10325476, 0xC3D2E1F0]).map be32).flatten

/-- `hmac.new(key, msg, hashlib.sha1).digest()`. -/
def hmacSha1 (key msg : List Nat) : List Nat :=
  let k0 := if 64 < key.length then sha1 key else key
  let kp := k0 ++ List.replicate (64 - k0.length) 0
  sha1 ((kp.map fun b => b ^^^ 0x5C) ++ sha1 ((kp.map fun b => b ^^^ 0x36) ++ msg))

/-- Base64 alphabet. -/
def b64Char (n : Nat) : Char :=
  if n < 26 then Char.ofNat (65 + n)
  else if n < 52 then Char.ofNat (97 + n - 26)
  else if n < 62 then Char.ofNat (48 + n - 52)
  else if n = 62 then '+'
  else '/'

/-- Base64 encoding of a byte list (with `=` padding). -/
def b64Chunks : List Nat → List Char
  | [] => []
  | [a] => [b64Char (a >>> 2), b64Char ((a &&& 3) <<< 4), '=', '=']
  | [a, b] => [b64Char (a >>> 2), b64Char (((a &&& 3) <<< 4) ||| (b >>> 4)),
               b64Char ((b &&& 15) <<< 2), '=']
  | a :: b :: c :: rest =>
    b64Char (a >>> 2) :: b64Char (((a &&& 3) <<< 4) ||| (b >>> 4)) ::
    b64Char (((b &&& 15) <<< 2) ||| (c >>> 6)) :: b64Char (c &&& 63) :: b64Chunks rest

/-- The bytes of a Python 2 byte string. -/
def strBytes (s : String) : List Nat := s.data.map Char.toNat

/-- `binascii.b2a_base64(hmac.new(key, msg, sha1).digest())[:-1]`:
the base64 digest with the trailing newline stripped. -/
def hmacSha1Base64 (key msg : String) : String :=
  ⟨b64Chunks (hmacSha1 (strBytes key) (strBytes msg))⟩

/-- The 64 MD5 sine-table constants (RFC 1321 `T`). -/
def md5T : List Nat :=
  [0xd76aa478, 0xe8c7b756, 0x242070db, 0xc1bdceee,
   0xf57c0faf, 0x4787c62a, 0xa8304613, 0xfd469501,
   0x698098d8, 0x8b44f7af, 0xffff5bb1, 0x895cd7be,
   0x6b901122, 0xfd987193, 0xa679438e, 0x49b40821,
   0xf61e2562, 0xc040b340, 0x265e5a51, 0xe9b6c7aa,
   0xd62f105d, 0x02441453, 0xd8a1e681, 0xe7d3fbc8,
   0x21e1cde6, 0xc33707d6, 0xf4d50d87, 0x455a14ed,
   0xa9e3e905, 0xfcefa3f8, 0x676f02d9, 0x8d2a4c8a,
   0xfffa3942, 0x8771f681, 0x6d9d6122, 0xfde5380c,
   0xa4beea44, 0x4bdecfa9, 0xf6bb4b60, 0xbebfbc70,
   0x289b7ec6, 0xeaa127fa, 0xd4ef3085, 0x04881d05,
   0xd9d4d039, 0xe6db99e5, 0x1fa27cf8, 0xc4ac5665,
   0xf4292244, 0x432aff97, 0xab9423a7, 0xfc93a039,
   0x655b59c3, 0x8f0ccc92, 0xffeff47d, 0x85845dd1,
   0x6fa87e4f, 0xfe2ce6e0, 0xa3014314, 0x4e0811a1,
   0xf7537e82, 0xbd3af235, 0x2ad7d2bb, 0xeb86d391]

/-- The per-round MD5 shift amounts. -/
def md5S : List Nat :=
  [7, 12, 17, 22, 7, 12, 17, 22, 7, 12, 17, 22, 7, 12, 17, 22,
   5, 9, 14, 20, 5, 9, 14, 20, 5, 9, 14, 20, 5, 9, 14, 20,
   4, 11, 16, 23, 4, 11, 16, 23, 4, 11, 16, 23, 4, 11, 16, 23,
   6, 10, 15, 21, 6, 10, 15, 21, 6, 10, 15, 21, 6, 10, 15, 21]

/-- MD5 padding (little-endian bit length). -/
def md5Pad (msg : List Nat) : List Nat :=
  msg ++ 0x80 :: List.replicate (padZeroLen msg.length) 0 ++ le64Bytes (8 * msg.length)

/-- 16 little-endian message words of one block. -/
def leWords16 (block : List Nat) : List Nat :=
  (List.range 16).map fun i =>
    block.getD (4 * i) 0 ||| (block.getD (4 * i + 1) 0 <<< 8) |||
    (block.getD (4 * i + 2) 0 <<< 16) ||| (block.getD (4 * i + 3) 0 <<< 24)

/-- One MD5 operation. -/
def md5Step (m : List Nat) (st : Nat × Nat × Nat × Nat) (i : Nat) :
    Nat × Nat × Nat × Nat :=
  let (a, b, c, d) := st
  let f :=
    if i < 16 then (b &&& c) ||| ((b ^^^ 0xFFFFFFFF) &&& d)
    else if i < 32 then (d &&& b) ||| ((d ^^^ 0xFFFFFFFF) &&& c)
    else if i < 48 then b ^^^ c ^^^ d
    else c ^^^ (b ||| (d ^^^ 0xFFFFFFFF))
  let g :=
    if i < 16 then i
    else if i < 32 then (5 * i + 1) % 16
    else if i < 48 then (3 * i + 5) % 16
    else 7 * i % 16
  (d, u32 (b + rotl32 (md5S.getD i 0) (u32 (a + f + md5T.getD i 0 + m.getD g 0))), b, c)

/-- MD5 compression of one 64-byte block. -/
def md5Compress (h : List Nat) (block : List Nat) : List Nat :=
  let m := leWords16 block
  let res := (List.range 64).foldl (md5Step m) (h.getD 0 0, h.getD 1 0, h.getD 2 0, h.getD 3 0)
  [u32 (h.getD 0 0 + res.1), u32 (h.getD 1 0 + res.2.1),
   u32 (h.getD 2 0 + res.2.2.1), u32 (h.getD 3 0 + res.2.2.2)]

/-- `hashlib.md5(msg).digest()` as a 16-byte list. -/
def md5Bytes (msg : List Nat) : List Nat :=
  (((chunk64 (md5Pad msg)).foldl md5Compress
      [0x67452301, 0xefcdab89, 0x98badcfe, 0x10325476]).map le32).flatten

/-- `hashlib.md5(s).hexdigest()` — with the call parentheses, i.e. the hex
string the *store* side of the cache computes. -/
def md5hex (s : String) : String :=
  ⟨((md5Bytes (strBytes s)).map fun b => [hexLowChar (b / 16 % 16), hexLowChar (b % 16)]).flatten⟩

/-! ## Decoded JSON values and Python exceptions

`JVal` embeds the decoded JSON trees the client handles (`json_decode`);
the shapes the library touches are strings, numbers, `null`/`None` and
objects.  Python `None` and JSON `null` are both `JVal.null`. -/

inductive JVal where
  | str (s : String)
  | num (n : Int)
  | null
  | obj (fields : List (String × JVal))

/-- The API-error value `VimeoAPIError(method, code, msg)`. -/
structure VErr where
  method : String
  code : JVal
  msg : JVal

/-- The exceptions the embedded code can raise. -/
inductive PyExc where
  | api (e : VErr)
  | keyError
  | typeError
  | valueError
  | attributeError
  | nameError (var : String)

/-- Python bracket access `v[k]`: KeyError on a missing key, TypeError when
the value is not a dict. -/
def JVal.item (v : JVal) (k : String) : Except PyExc JVal :=
  match v with
  | .obj fields =>
    match alookup fields k with
    | some x => .ok x
    | none => .error .keyError
  | _ => .error .typeError

/-- Python `v.get(k)`: `None` (here `Option.none`) on a missing key,
AttributeError when the value is not a dict. -/
def JVal.getAttrD (v : JVal) (k : String) : Except PyExc (Option JVal) :=
  match v with
  | .obj fields => .ok (alookup fields k)
  | _ => .error .attributeError

/-- `x == 'lit'` for a decoded JSON value against a Python string literal. -/
def jEqStr : JVal → String → Bool
  | .str x, s => x == s
  | _, _ => false

/-- `d.get(k) == 'lit'` (`None == str` is `False` in Python). -/
def jOptEqStr : Option JVal → String → Bool
  | some (.str x), s => x == s
  | _, _ => false

/-- Lift `d.get(k)`'s `None` back into a value. -/
def optJ : Option JVal → JVal
  | some v => v
  | none => .null

/-- Python 2 `str(v)` for the decoded values (`%s` formatting).  The repr
of a dict is never taken on the modelled paths; it is rendered as a brace
placeholder. -/
def pyStrJ : JVal → String
  | .str s => s
  | .num n => toString n
  | .null => "None"
  | .obj _ => "\x7b...\x7d"

/-- Python 2 `v < i` for a decoded value against an int (`file_size`).
Cross-type comparisons never raise in Python 2: `None` sorts below
everything and numbers sort below all non-`None` values, so a string or
dict is never `<` an int. -/
def pyLtJInt : JVal → Int → Bool
  | .num n, i => decide (n < i)
  | .str _, _ => false
  | .null, _ => true
  | .obj _, _ => false

/-- Python 2 `i > v` for an int against a decoded value (same cross-type
ordering as `pyLtJInt`). -/
def pyGtIntJ : Int → JVal → Bool
  | i, .num n => decide (n < i)
  | _, .str _ => false
  | _, .null => true
  | _, .obj _ => false

/-- Python `int(v)` as applied to `info['size']`: ints pass through,
numeric strings parse, anything else raises. -/
def pyIntOfJ : JVal → Except PyExc Int
  | .num n => .ok n
  | .str s =>
    match s.toInt? with
    | some n => .ok n
    | none => .error .valueError
  | .null => .error .typeError
  | .obj _ => .error .typeError

/-! ## The Signature Engine (`VimeoClient._generate_signature`) -/

/-- Default REST endpoint (`API_REST_URL`). -/
def API_REST_URL : String := "http://vimeo.com/api/rest/v2"

/-- `API_AUTH_URL`. -/
def API_AUTH_URL : String := "http://vimeo.com/oauth/authorize"

/-- `API_ACCESS_TOKEN_URL`. -/
def API_ACCESS_TOKEN_URL : String := "http://vimeo.com/oauth/access_token"

/-- `API_REQUEST_TOKEN_URL`. -/
def API_REQUEST_TOKEN_URL : String := "http://vimeo.com/oauth/request_token"

/-- `VimeoClient._generate_signature(params, request_method, url)` over the
instance's consumer secret and (possibly absent) token secret.  The
parameter dict is an association list of string keys and values (its order
is the dict's iteration order); `sorted(params.keys())` is embedded as an
insertion sort by the lexicographic string order, which agrees with
Python's byte-wise string sort. -/
def generate_signature (params : List (String × String)) (request_method url : String)
    (consumer_secret : String) (token_secret : Option String) : String :=
  let keys := List.insertionSort (fun a b : String => a ≤ b) (params.map Prod.fst)
  let qparams := params.map fun kv => (kv.1, pyQuote kv.2)
  let items := keys.map fun k => (k, (alookup qparams k).getD "")
  let querystring := pyUrlencode items
  let base_string := String.intercalate "&"
    ([pyUpper request_method, url, pyUnquote querystring].map pyQuote)
  let key := String.intercalate "&" ([consumer_secret, token_secret.getD ""].map pyQuote)
  hmacSha1Base64 key base_string

/-! ## The `_url_encode_rfc3986` utility (claim C7) -/

/-- The Python values `_url_encode_rfc3986` can receive. -/
inductive PyIn where
  | pystr (s : String)
  | pyint (n : Int)
  | pynone
  | pylist (xs : List PyIn)
  | pydict (kvs : List (String × PyIn))

/-- `str(v)` for those values (container reprs are placeholders; the
library never encodes a container nested inside another container). -/
def pyStrOfIn : PyIn → String
  | .pystr s => s
  | .pyint n => toString n
  | .pynone => "None"
  | .pylist _ => "[...]"
  | .pydict _ => "\x7b...\x7d"

/-- `VimeoClient._url_encode_rfc3986(input)`: dicts get their values
replaced by `urllib.quote(str(v), safe = '')` with keys unchanged; other
iterables map to a list of quoted `str(i)`; plain strings are quoted;
anything else encodes to the empty string. -/
def url_encode_rfc3986 : PyIn → PyIn
  | .pydict kvs => .pydict (kvs.map fun kv => (kv.1, .pystr (pyQuote (pyStrOfIn kv.2))))
  | .pylist xs => .pylist (xs.map fun i => .pystr (pyQuote (pyStrOfIn i)))
  | .pystr s => .pystr (pyQuote s)
  | .pyint _ => .pystr ""
  | .pynone => .pystr ""

/-! ## Request Builder pieces (`VimeoClient._request`) -/

/-- Parameter values before transmission: a Python string or `None`. -/
def pyStrPV : Option String → String
  | some s => s
  | none => "None"

/-- The test `'oauth_' in k and k.index('oauth_') == 0` of the merge loop,
i.e. `k` starts with `oauth_`. -/
def isOauthKey (k : String) : Bool := pyStartsWith k "oauth_"

/-- The oauth parameter group `_request` starts from (lines 268-278):
consumer key, version, signature method, timestamp, nonce, and the active
token when one is set.  `timestamp` and `nonce` are the impure inputs
`int(time.time())` (already rendered by `str`) and `_generate_nonce()`. -/
def initOauthParams (consumer_key timestamp nonce : String) (token : Option String) :
    List (String × Option String) :=
  let base := [("oauth_consumer_key", some consumer_key),
               ("oauth_version", some "1.0"),
               ("oauth_signature_method", some "HMAC-SHA1"),
               ("oauth_timestamp", some timestamp),
               ("oauth_nonce", some nonce)]
  match token with
  | some t => base ++ [("oauth_token", some t)]
  | none => base

/-- The API parameter group (lines 281-283): `format=json` always and
`method=<name>` when a method name was given. -/
def initApiParams (method : Option String) : List (String × Option String) :=
  match method with
  | some m => [("format", some "json"), ("method", some m)]
  | none => [("format", some "json")]

/-- The caller-parameter merge loop (lines 286-290): an `oauth_`-prefixed
key is assigned into the oauth group (whatever its value); any other key is
assigned into the API group only when its value is not `None`. -/
def mergeCallParams (oauth api : List (String × Option String)) :
    List (String × Option String) → List (String × Option String) × List (String × Option String)
  | [] => (oauth, api)
  | kv :: rest =>
    if isOauthKey kv.1 then mergeCallParams (dinsert oauth kv.1 kv.2) api rest
    else
      match kv.2 with
      | some _ => mergeCallParams oauth (dinsert api kv.1 kv.2) rest
      | none => mergeCallParams oauth api rest

/-- Line 308-310: the parameter subset chosen for transmission —
`api_params` when the Authorization header carries the oauth group,
otherwise the full union `all_params`. -/
def chooseParams (use_auth_header : Bool)
    (api_params all_params : List (String × Option String)) : List (String × Option String) :=
  if use_auth_header then api_params else all_params

/-- The outcome of the dispatch step of `_request` (lines 312-329): either
a built HTTP request (URL plus optional form-encoded body), or an
uncaught Python `NameError`/`UnboundLocalError` naming the offending
variable. -/
inductive DispatchResult where
  | req (request_url : String) (body : Option String)
  | nameError (var : String)

/-- Lines 265 and 312-329 of `_request`: uppercase the verb; for GET append
the chosen parameters to the URL as a urlencoded query string; for POST the
source builds the body from `urllib.urlencode(items)` — but no variable
`items` exists in `_request` (it is local to `_generate_signature`), so the
POST path raises `NameError: items` before any request is built.  Any other
verb leaves `request_url` unbound. -/
def buildRequest (request_method url : String)
    (params : List (String × Option String)) : DispatchResult :=
  let m := pyUpper request_method
  if m = "GET" then
    .req (url ++ "?" ++ pyUrlencode (params.map fun kv => (kv.1, pyStrPV kv.2))) none
  else if m = "POST" then
    .nameError "items"
  else
    .nameError "request_url"

/-! ## The legacy timeout fallback (lines 331-340) -/

/-- The process-global socket state touched by
`socket.setdefaulttimeout`. -/
structure SocketGlobal where
  default_timeout : Option Int
deriving DecidableEq

/-- Whether the legacy `urllib2.urlopen(request)` call returned or raised. -/
inductive LegacyOutcome where
  | success
  | raised
deriving DecidableEq

/-- The legacy code path taken when `urllib2.urlopen` rejects the `timeout`
keyword (lines 334-340): save the global default, set it to 30, issue the
request, and set it back — the restore statement runs only when `urlopen`
returns, since there is no `try/finally` around it. -/
def legacyTimeoutRun (g : SocketGlobal) (urlopenRaises : Bool) :
    SocketGlobal × LegacyOutcome :=
  let old_default := g.default_timeout
  let g1 : SocketGlobal := ⟨some 30⟩
  if urlopenRaises then (g1, .raised)
  else ({ g1 with default_timeout := old_default }, .success)

/-! ## The Response Cache (`_cache` / `_get_cached`, memory backend)

`CACHE_DROP_PARAMETERS` are stripped, the remainder is urlencoded, and the
result is hashed.  The store side (`_cache`, line 133) calls
`hashlib.md5(params).hexdigest()` and keys the entry by the hex string; the
lookup side (`_get_cached`, line 216) writes `hashlib.md5(params).hexdigest`
*without calling it*, so its key is a fresh bound-method object, which never
compares equal to any string (nor to the bound method of another md5
instance).  `CacheKey` separates the two shapes. -/

/-- `CACHE_DROP_PARAMETERS`. -/
def CACHE_DROP_PARAMETERS : List String :=
  ["oauth_nonce", "oauth_signature", "oauth_timestamp"]

/-- Remove the volatile parameters before hashing (the `del params[i]`
loop of `_cache` / `_get_cached`). -/
def dropVolatileParams (params : List (String × String)) : List (String × String) :=
  params.filter fun kv => !(CACHE_DROP_PARAMETERS.contains kv.1)

/-- A memory-cache dict key: either the hexdigest string the store side
computes, or the un-called `hexdigest` bound method the lookup side
produces (tagged with the urlencoded parameter string its md5 object was
built from; distinct Python method objects also compare unequal to each
other, so such a key can never be stored). -/
inductive CacheKey where
  | hexStr (s : String)
  | boundMethod (srcParams : String)
deriving DecidableEq

/-- The key under which `_cache` stores a response (line 132-133):
`md5(urlencode(params minus volatile)).hexdigest()`. -/
def cacheStoreKey (params : List (String × String)) : CacheKey :=
  .hexStr (md5hex (pyUrlencode (dropVolatileParams params)))

/-- The key with which `_get_cached` looks a response up (line 215-216):
the *uncalled* `hexdigest` bound method. -/
def cacheLookupKey (params : List (String × String)) : CacheKey :=
  .boundMethod (pyUrlencode (dropVolatileParams params))

/-- The memory cache `self._memory_cache`: hash → (response, stored-at). -/
abbrev MemCache : Type := List (CacheKey × (JVal × Int))

/-- `_cache` with the memory backend (line 140):
`self._memory_cache[hash] = (response_data, time.time())`. -/
def cacheStoreMem (mc : MemCache) (params : List (String × String)) (resp : JVal)
    (now : Int) : MemCache :=
  dinsert mc (cacheStoreKey params) (resp, now)

/-- `_get_cached` with the memory backend (lines 228-233): evict every
entry whose stored-at time plus the expiry lies before now, then
`return self._memory_cache.get(hash)` on the evicted dict. -/
def getCachedMem (mc : MemCache) (params : List (String × String)) (now expire : Int) :
    Option (JVal × Int) × MemCache :=
  let mc' := (mc : List (CacheKey × (JVal × Int))).filter fun kv => !decide (kv.2.2 + expire < now)
  (alookup mc' (cacheLookupKey params), mc')

/-! ## Token-string parsing (`_parse_token_string`, `parse_qs`) -/

/-- One pair of `urlparse.parse_qsl` (with its defaults: blank values are
dropped, parsing is not strict): split at the first `=`, keep the pair when
the value is non-blank, and unquote both sides after turning `+` into
space. -/
def parseQslPair (pair : String) : Option (String × String) :=
  match pair.splitOn "=" with
  | [] => none
  | [_] => none
  | n :: rest =>
    let v := String.intercalate "=" rest
    if v = "" then none
    else some (pyUnquote (n.replace "+" " "), pyUnquote (v.replace "+" " "))

/-- Accumulate one parsed pair into the multi-dict `parse_qs` builds. -/
def appendMulti (d : List (String × List String)) (k v : String) :
    List (String × List String) :=
  match d with
  | [] => [(k, [v])]
  | (a, vs) :: t => if a = k then (a, vs ++ [v]) :: t else (a, vs) :: appendMulti t k v

/-- `urlparse.parse_qs(qs)`: split on `&` and `;`, parse each pair, and
group the values by key. -/
def parse_qs (qs : String) : List (String × List String) :=
  (((qs.splitOn "&").map (fun s1 => s1.splitOn ";")).flatten.filterMap parseQslPair).foldl
    (fun d kv => appendMulti d kv.1 kv.2) []

/-- A value of the dict `_parse_token_string` returns: a single string, a
list of strings, or `None` (the `len(v) == 0` branch, unreachable through
`parse_qs` but present in the source). -/
inductive TokVal where
  | one (s : String)
  | many (vs : List String)
  | pynone

/-- `VimeoClient._parse_token_string(tokenstring)`: `parse_qs`, then
flatten singleton value lists (and map empty lists to `None`). -/
def parse_token_string (tokenstring : String) : List (String × TokVal) :=
  (parse_qs tokenstring).map fun kv =>
    match kv.2 with
    | [v] => (kv.1, .one v)
    | [] => (kv.1, .pynone)
    | vs => (kv.1, .many vs)

/-! ## Client state, `set_token`, `call`, `get_access_token` -/

/-- The cache backends of `enable_cache` (`CACHE_FILE` / `CACHE_MEMORY`). -/
inductive CacheBackend where
  | file
  | memory
deriving DecidableEq

/-- The mutable state of a `VimeoClient` instance that the modelled
operations touch (credentials are immutable after construction). -/
structure ClientState where
  consumer_key : String
  consumer_secret : String
  token : Option String
  token_secret : Option String
  cache_enabled : Option CacheBackend
  memory_cache : MemCache
  cache_expire : Int

/-- `VimeoClient.set_token(token, token_secret)`. -/
def set_token (st : ClientState) (token token_secret : String) : ClientState :=
  { st with token := some token, token_secret := some token_secret }

/-- The method-name normalisation of `VimeoClient.call` (lines 401-402):
prepend `vimeo.` unless the name already starts with it. -/
def callMethodName (method : String) : String :=
  if pyStartsWith method "vimeo." then method else "vimeo." ++ method

/-- `_request` on the token-exchange path (`method = None`, `cache =
False`), as `get_access_token` invokes it: when a cache backend is enabled
the lookup at line 302 still runs — with the memory backend it evicts
expired entries and (because of the uncalled-`hexdigest` key) always
misses, and with the file backend `os.path.join` is applied to the bound
method and raises an `AttributeError`; the hit is in any case never
returned because `cache` is `False`.  The network response body (the raw
token string) is the oracle input `body`; with no method name `_request`
returns it unparsed. -/
def requestTokenEndpoint (st : ClientState) (all_params : List (String × String))
    (now : Int) (body : String) : Except PyExc String × ClientState :=
  match st.cache_enabled with
  | none => (.ok body, st)
  | some .memory =>
    let r := getCachedMem st.memory_cache all_params now st.cache_expire
    (.ok body, { st with memory_cache := r.2 })
  | some .file => (.error .attributeError, st)

/-- `VimeoClient.get_access_token(verifier)` (lines 444-456): issue
`_request(None, {'oauth_verifier': verifier}, 'GET', API_ACCESS_TOKEN_URL,
False, True)` and parse the returned token string.  The oauth/API parameter
groups, the signature and the full union are built exactly as `_request`
builds them; `timestamp`, `nonce`, `now` and the response `body` are the
impure inputs. -/
def get_access_token (st : ClientState) (verifier timestamp nonce : String)
    (now : Int) (body : String) : Except PyExc (List (String × TokVal)) × ClientState :=
  let o := initOauthParams st.consumer_key timestamp nonce st.token
  let oa := mergeCallParams o (initApiParams none) [("oauth_verifier", some verifier)]
  let signature_params := dictOfItems (oa.1 ++ oa.2)
  let sig := generate_signature (signature_params.map fun kv => (kv.1, pyStrPV kv.2))
    "GET" API_ACCESS_TOKEN_URL st.consumer_secret st.token_secret
  let o2 := dinsert oa.1 "oauth_signature" (some sig)
  let all_params := dictOfItems (o2 ++ oa.2)
  match requestTokenEndpoint st (all_params.map fun kv => (kv.1, pyStrPV kv.2)) now body with
  | (.ok raw, st') => (.ok (parse_token_string raw), st')
  | (.error e, st') => (.error e, st')

/-! ## The Upload Orchestrator (`VimeoClient.upload`)

The upload claims are settled against a stub transport: an oracle mapping
each dispatched method name to its decoded JSON response (each method is
called at most once per run, and the library's parameters do not influence
the stubbed response).  The client is in the default cache-disabled
configuration, so `self.call` reduces to `callMethodName` followed by
`_request`'s JSON handling.  The trace records, in order, every `call`
dispatch and the raw data PUT. -/

/-- Trace events of an upload run. -/
inductive Ev where
  | call (method : String)
  | put (endpoint : String)
deriving DecidableEq

/-- The JSON branch of `_request` (lines 342-355) for a dispatched method:
on `stat == 'ok'` the decoded body is returned, otherwise a
`VimeoAPIError(method, err.code, err.msg)` is raised (an `err` field that
is missing raises `AttributeError` at `error.get`). -/
def requestJson (t : String → JVal) (method : String) : Except PyExc JVal :=
  match (t method).getAttrD "stat" with
  | .error e => .error e
  | .ok st =>
    if jOptEqStr st "ok" then .ok (t method)
    else
      match (t method).getAttrD "err" with
      | .error e => .error e
      | .ok none => .error .attributeError
      | .ok (some errv) =>
        match errv.getAttrD "code" with
        | .error e => .error e
        | .ok c =>
          match errv.getAttrD "msg" with
          | .error e => .error e
          | .ok m => .error (.api ⟨method, optJ c, optJ m⟩)

/-- `quota['user']['upload_space']['free']` (line 518). -/
def quotaFreeOf (quota : JVal) : Except PyExc JVal :=
  (quota.item "user").bind fun u => (u.item "upload_space").bind fun s => s.item "free"

/-- `verify['ticket']['chunks']['chunk']` (line 554). -/
def verifyChunkOf (verify : JVal) : Except PyExc JVal :=
  (verify.item "ticket").bind fun a => (a.item "chunks").bind fun b => b.item "chunk"

/-- `complete['ticket']['video_id']` (line 572). -/
def completeVideoIdOf (complete : JVal) : Except PyExc JVal :=
  (complete.item "ticket").bind fun tk => tk.item "video_id"

/-- The integrity-error message of lines 556-561.  The source formats
`info['id']`, `info['size']`, `info['size']` — the third `%s` repeats the
reported size instead of the transferred byte count. -/
def integrityMsg (iid sizeJ : JVal) : String :=
  "File chunk id " ++ pyStrJ iid ++ " is " ++ pyStrJ sizeJ ++ " bytes but " ++
    pyStrJ sizeJ ++ " were uploaded"

/-- `VimeoClient.upload` (lines 493-575) over a stub transport, for an open
file of `file_size` bytes named `file_name`: quota check, ticket, raw PUT,
chunk verification (collecting a non-fatal integrity error on a size
mismatch), completion.  Returns the `(video_id, errors)` pair or the raised
exception, together with the trace of transport interactions. -/
def upload (t : String → JVal) (file_size : Int) (file_name : String)
    (replace_id : Option String) : Except PyExc (JVal × List VErr) × List Ev :=
  let m1 := callMethodName "vimeo.videos.upload.getQuota"
  let tr1 := [Ev.call m1]
  match requestJson t m1 with
  | .error e => (.error e, tr1)
  | .ok quota =>
    match quotaFreeOf quota with
    | .error e => (.error e, tr1)
    | .ok quota_free =>
      if pyLtJInt quota_free file_size then
        (.error (.api ⟨m1, .num 707,
          .str "The file is larger than the user\x27s remaining quota."⟩), tr1)
      else
        let params := match replace_id with
          | some rid => [("video_id", rid)]
          | none => ([] : List (String × String))
        let m2 := callMethodName "vimeo.videos.upload.getTicket"
        let tr2 := tr1 ++ [Ev.call m2]
        match requestJson t m2 with
        | .error e => (.error e, tr2)
        | .ok rsp =>
          match (rsp.item "ticket").bind fun tk => tk.item "id" with
          | .error e => (.error e, tr2)
          | .ok ticket =>
            match (rsp.item "ticket").bind fun tk => tk.item "endpoint" with
            | .error e => (.error e, tr2)
            | .ok endpoint =>
              match (rsp.item "ticket").bind fun tk => tk.item "max_file_size" with
              | .error e => (.error e, tr2)
              | .ok max_file_size =>
                if pyGtIntJ file_size max_file_size then
                  (.error (.api ⟨m2, .num 710, .str "File exceeds maximum allowed size."⟩), tr2)
                else
                  let _ := params
                  let _ := ticket
                  let tr3 := tr2 ++ [Ev.put (pyStrJ endpoint)]
                  let m3 := callMethodName "vimeo.videos.upload.verifyChunks"
                  let tr4 := tr3 ++ [Ev.call m3]
                  match requestJson t m3 with
                  | .error e => (.error e, tr4)
                  | .ok verify =>
                    match verifyChunkOf verify with
                    | .error e => (.error e, tr4)
                    | .ok info =>
                      match info.item "size" with
                      | .error e => (.error e, tr4)
                      | .ok sizeJ =>
                        match pyIntOfJ sizeJ with
                        | .error e => (.error e, tr4)
                        | .ok sz =>
                          let errRes : Except PyExc (List VErr) :=
                            if sz = file_size then .ok []
                            else
                              match info.item "id" with
                              | .error e => .error e
                              | .ok iid => .ok [⟨"", .str "", .str (integrityMsg iid sizeJ)⟩]
                          match errRes with
                          | .error e => (.error e, tr4)
                          | .ok errors =>
                            let m4 := callMethodName "vimeo.videos.upload.complete"
                            let tr5 := tr4 ++ [Ev.call m4]
                            match requestJson t m4 with
                            | .error e => (.error e, tr5)
                            | .ok complete =>
                              match complete.item "stat" with
                              | .error e => (.error e, tr5)
                              | .ok statJ =>
                                if jEqStr statJ "ok" then
                                  match completeVideoIdOf complete with
                                  | .error e => (.error e, tr5)
                                  | .ok vid => (.ok (vid, errors), tr5)
                                else
                                  match (complete.item "err").bind fun ev => ev.item "code" with
                                  | .error e => (.error e, tr5)
                                  | .ok codeJ =>
                                    match (complete.item "err").bind fun ev => ev.item "msg" with
                                    | .error e => (.error e, tr5)
                                    | .ok msgJ => (.error (.api ⟨m4, codeJ, msgJ⟩), tr5)

/-! ## Helper lemmas -/

theorem isPrefixOf_self_append (l t : List Char) : l.isPrefixOf (l ++ t) = true := by
  induction l with
  | nil => cases t <;> rfl
  | cons a as ih => simp [List.isPrefixOf, ih]

theorem string_data_append (a b : String) : (a ++ b).data = a.data ++ b.data := rfl

theorem pyStartsWith_append (pre m : String) : pyStartsWith (pre ++ m) pre = true := by
  unfold pyStartsWith
  rw [string_data_append]
  exact isPrefixOf_self_append pre.data m.data

/-- C10: `call` prepends `vimeo.` to a method name that does not already
start with it, passes an already-prefixed name through unchanged, and its
dispatched method name always starts with `vimeo.`. -/
theorem call_method_name_spec (m : String) :
    (pyStartsWith m "vimeo." = true → callMethodName m = m) ∧
    (pyStartsWith m "vimeo." = false → callMethodName m = "vimeo." ++ m) ∧
    pyStartsWith (callMethodName m) "vimeo." = true := by
  refine ⟨fun h => ?_, fun h => ?_, ?_⟩
  · simp [callMethodName, h]
  · simp [callMethodName, h]
  · by_cases h : pyStartsWith m "vimeo." = true
    · simp [callMethodName, h]
    · simp only [Bool.not_eq_true] at h
      simp [callMethodName, h, pyStartsWith_append]

theorem call_method_name_spec_witness :
    callMethodName "albums.getAll" = "vimeo." ++ "albums.getAll" ∧
    callMethodName "vimeo.videos.upload.getQuota" = "vimeo.videos.upload.getQuota" := by
  exact ⟨(call_method_name_spec "albums.getAll").2.1 (by decide),
         (call_method_name_spec "vimeo.videos.upload.getQuota").1 (by decide)⟩

/-- C7: `_url_encode_rfc3986` percent-encodes `~` as `%7E` (Python 2
`urllib.quote` treats only `A-Za-z0-9_.-` as safe), although RFC 3986
counts `~` among the unreserved characters that must stay unencoded. -/
theorem url_encode_rfc3986_tilde :
    url_encode_rfc3986 (.pystr "~") = .pystr "%7E" ∧
    url_encode_rfc3986 (.pystr "~") ≠ .pystr "~" := by
  refine ⟨rfl, ?_⟩
  intro h
  have h2 : PyIn.pystr "%7E" = PyIn.pystr "~" := h
  injection h2 with h3
  exact absurd h3 (by decide)

/-- C8: on the legacy timeout path, when the request itself raises, the
restore of the saved global socket default is skipped (there is no
`try/finally`), so the process-global default stays at 30 instead of being
restored to the prior value (`None` here). -/
theorem legacy_timeout_no_restore_on_raise :
    legacyTimeoutRun ⟨none⟩ true = (⟨some 30⟩, .raised) ∧
    (⟨some 30⟩ : SocketGlobal) ≠ ⟨none⟩ := by
  refine ⟨rfl, ?_⟩
  intro h
  cases h

/-- C6: for every URL and chosen parameter set, the GET dispatch builds the
request with the urlencoded parameters appended to the URL as a query
string and no body, while the POST dispatch raises `NameError` on the
undefined variable `items` (line 326 uses `urllib.urlencode(items)` where
no `items` exists in `_request`), so no POST body is ever built from the
chosen parameters. -/
theorem build_request_get_post (url : String) (params : List (String × Option String)) :
    buildRequest "GET" url params =
      .req (url ++ "?" ++ pyUrlencode (params.map fun kv => (kv.1, pyStrPV kv.2))) none ∧
    buildRequest "POST" url params = .nameError "items" := by
  constructor <;> rfl

theorem dinsert_alookup_self {κ α : Type} [DecidableEq κ] (l : List (κ × α)) (k : κ) (v : α) :
    alookup (dinsert l k v) k = some v := by
  induction l with
  | nil => simp [dinsert, alookup]
  | cons hd t ih =>
    obtain ⟨a, b⟩ := hd
    by_cases h : a = k
    · simp [dinsert, alookup, h]
    · simp [dinsert, alookup, h, ih]

theorem dinsert_alookup_ne {κ α : Type} [DecidableEq κ] (l : List (κ × α)) (k k' : κ) (v : α)
    (h : k' ≠ k) : alookup (dinsert l k v) k' = alookup l k' := by
  induction l with
  | nil =>
    simp only [dinsert, alookup]
    rw [if_neg (fun hh => h hh.symm)]
  | cons hd t ih =>
    obtain ⟨a, b⟩ := hd
    by_cases ha : a = k
    · subst ha
      simp only [dinsert, if_pos rfl, alookup]
      rw [if_neg (fun hh => h hh.symm), if_neg (fun hh => h hh.symm)]
    · simp only [dinsert, if_neg ha, alookup]
      split
      · rfl
      · exact ih

theorem dinsert_mem_keys_self {κ α : Type} [DecidableEq κ] (l : List (κ × α)) (k : κ) (v : α) :
    k ∈ (dinsert l k v).map Prod.fst := by
  induction l with
  | nil => simp [dinsert]
  | cons hd t ih =>
    obtain ⟨a, b⟩ := hd
    by_cases ha : a = k
    · simp [dinsert, ha]
    · simp only [dinsert, if_neg ha, List.map_cons, List.mem_cons]
      exact Or.inr ih

theorem dinsert_keys_mem {κ α : Type} [DecidableEq κ] (l : List (κ × α)) (k k' : κ) (v : α)
    (h : k' ∈ l.map Prod.fst) : k' ∈ (dinsert l k v).map Prod.fst := by
  induction l with
  | nil => simp at h
  | cons hd t ih =>
    obtain ⟨a, b⟩ := hd
    simp only [List.map_cons, List.mem_cons] at h
    by_cases ha : a = k
    · simpa [dinsert, ha] using h
    · simp only [dinsert, if_neg ha, List.map_cons, List.mem_cons]
      rcases h with h | h
      · exact Or.inl h
      · exact Or.inr (ih h)

theorem dinsert_mem_pair {κ α : Type} [DecidableEq κ] (l : List (κ × α)) (k : κ) (v : α)
    (kv : κ × α) (h : kv ∈ dinsert l k v) : kv ∈ l ∨ kv.1 = k := by
  induction l with
  | nil =>
    simp [dinsert] at h
    subst h
    exact Or.inr rfl
  | cons hd t ih =>
    obtain ⟨a, b⟩ := hd
    by_cases ha : a = k
    · simp only [dinsert, if_pos ha, List.mem_cons] at h
      rcases h with h | h
      · subst h
        exact Or.inr ha
      · exact Or.inl (List.mem_cons_of_mem _ h)
    · simp only [dinsert, if_neg ha, List.mem_cons] at h
      rcases h with h | h
      · exact Or.inl (by simp [h])
      · rcases ih h with h' | h'
        · exact Or.inl (List.mem_cons_of_mem _ h')
        · exact Or.inr h'

theorem alookup_eq_none {κ α : Type} [DecidableEq κ] (l : List (κ × α)) (k : κ)
    (h : ∀ kv ∈ l, kv.1 ≠ k) : alookup l k = none := by
  induction l with
  | nil => rfl
  | cons hd t ih =>
    obtain ⟨a, b⟩ := hd
    simp only [alookup]
    rw [if_neg (h (a, b) (List.mem_cons_self _ _))]
    exact ih fun kv hkv => h kv (List.mem_cons_of_mem _ hkv)

theorem merge_oauth_keys_mono (cp : List (String × Option String)) :
    ∀ o a k, k ∈ o.map Prod.fst → k ∈ (mergeCallParams o a cp).1.map Prod.fst := by
  induction cp with
  | nil => intro o a k h; exact h
  | cons kv rest ih =>
    intro o a k h
    by_cases hk : isOauthKey kv.1 = true
    · simp only [mergeCallParams, if_pos hk]
      exact ih _ _ _ (dinsert_keys_mem o kv.1 k kv.2 h)
    · simp only [mergeCallParams, if_neg hk]
      cases hv : kv.2 with
      | some s => exact ih _ _ _ h
      | none => exact ih _ _ _ h

theorem merge_api_at_oauth_key (cp : List (String × Option String)) :
    ∀ o a k, isOauthKey k = true →
      alookup (mergeCallParams o a cp).2 k = alookup a k := by
  induction cp with
  | nil => intro o a k _; rfl
  | cons kv rest ih =>
    intro o a k hk
    by_cases hkv : isOauthKey kv.1 = true
    · simp only [mergeCallParams, if_pos hkv]
      exact ih _ _ _ hk
    · simp only [mergeCallParams, if_neg hkv]
      cases hv : kv.2 with
      | some s =>
        rw [ih _ _ _ hk, dinsert_alookup_ne]
        intro h
        rw [h] at hk
        exact hkv hk
      | none => exact ih _ _ _ hk

theorem merge_api_no_new_none (cp : List (String × Option String)) :
    ∀ o a k, alookup (mergeCallParams o a cp).2 k = some none →
      alookup a k = some none := by
  induction cp with
  | nil => intro o a k h; exact h
  | cons kv rest ih =>
    intro o a k h
    by_cases hkv : isOauthKey kv.1 = true
    · simp only [mergeCallParams, if_pos hkv] at h
      exact ih _ _ _ h
    · simp only [mergeCallParams, if_neg hkv] at h
      cases hv : kv.2 with
      | some s =>
        rw [hv] at h
        have h2 := ih _ _ _ h
        by_cases he : k = kv.1
        · subst he
          rw [dinsert_alookup_self] at h2
          cases h2
        · rw [dinsert_alookup_ne _ _ _ _ he] at h2
          exact h2
      | none =>
        rw [hv] at h
        exact ih _ _ _ h

theorem merge_oauth_key_lands (cp : List (String × Option String)) :
    ∀ o a kv, kv ∈ cp → isOauthKey kv.1 = true →
      kv.1 ∈ (mergeCallParams o a cp).1.map Prod.fst := by
  induction cp with
  | nil => intro o a kv h; cases h
  | cons hd rest ih =>
    intro o a kv h hk
    rcases List.mem_cons.mp h with h | h
    · subst h
      simp only [mergeCallParams, if_pos hk]
      exact merge_oauth_keys_mono rest _ _ _ (dinsert_mem_keys_self o kv.1 kv.2)
    · by_cases hkv : isOauthKey hd.1 = true
      · simp only [mergeCallParams, if_pos hkv]
        exact ih _ _ _ h hk
      · simp only [mergeCallParams, if_neg hkv]
        cases hv : hd.2 with
        | some s => exact ih _ _ _ h hk
        | none => exact ih _ _ _ h hk

/-- C5 (amended): in `_request`'s parameter merge, every caller key
prefixed `oauth_` lands in the oauth parameter group and never alters the
API parameter group, and every *non-oauth* caller parameter with value
`None` is dropped — the API group acquires no `None` value it did not
already have.  (An `oauth_`-prefixed caller parameter whose value is `None`
is, however, kept in the oauth group, so a `None` value can still reach the
transmitted parameter set; see the counterexample.) -/
theorem merge_call_params_spec (oauth api cp : List (String × Option String)) :
    (∀ kv, kv ∈ cp → isOauthKey kv.1 = true →
      kv.1 ∈ (mergeCallParams oauth api cp).1.map Prod.fst) ∧
    (∀ k, isOauthKey k = true →
      alookup (mergeCallParams oauth api cp).2 k = alookup api k) ∧
    (∀ k, alookup (mergeCallParams oauth api cp).2 k = some none →
      alookup api k = some none) :=
  ⟨fun kv h hk => merge_oauth_key_lands cp oauth api kv h hk,
   fun k hk => merge_api_at_oauth_key cp oauth api k hk,
   fun k h => merge_api_no_new_none cp oauth api k h⟩

theorem merge_call_params_spec_witness :
    "oauth_verifier" ∈
      (mergeCallParams (initOauthParams "ck" "1" "n" none) (initApiParams none)
        [("oauth_verifier", some "v"), ("title", none)]).1.map Prod.fst ∧
    alookup (mergeCallParams (initOauthParams "ck" "1" "n" none) (initApiParams none)
        [("oauth_verifier", some "v"), ("title", none)]).2 "oauth_verifier" =
      alookup (initApiParams none) "oauth_verifier" :=
  ⟨(merge_call_params_spec (initOauthParams "ck" "1" "n" none) (initApiParams none)
      [("oauth_verifier", some "v"), ("title", none)]).1
      ("oauth_verifier", some "v") (by simp) (by decide),
   (merge_call_params_spec (initOauthParams "ck" "1" "n" none) (initApiParams none)
      [("oauth_verifier", some "v"), ("title", none)]).2.1
      "oauth_verifier" (by decide)⟩

/-- C5 counterexample: a caller parameter `oauth_callback = None` (as
`get_request_token(None)` would pass) is *not* dropped — it is routed into
the oauth group by the merge, survives into `all_params`, and therefore
appears, with its `None` value, in the parameter set chosen for
transmission when the Authorization header is not used. -/
theorem merge_null_oauth_param_transmitted :
    alookup
      (chooseParams false
        (mergeCallParams (initOauthParams "ck" "1" "n" none) (initApiParams none)
          [("oauth_callback", none)]).2
        (dictOfItems
          (dinsert (mergeCallParams (initOauthParams "ck" "1" "n" none) (initApiParams none)
              [("oauth_callback", none)]).1 "oauth_signature" (some "sig") ++
            (mergeCallParams (initOauthParams "ck" "1" "n" none) (initApiParams none)
              [("oauth_callback", none)]).2)))
      "oauth_callback" = some none := by
  rfl

/-- C4: the cache key `_cache` stores under and the key `_get_cached` looks
up with are *never* equal — the store side hashes to a hex string while the
lookup side's `hashlib.md5(params).hexdigest` (line 216) is missing the
call parentheses and evaluates to a bound-method object — so a memory-cache
lookup after a store always returns `None`, whatever the parameters (on any
cache whose existing keys were produced by stores). -/
theorem cache_lookup_never_hits (mc : MemCache)
    (hmc : ∀ k ∈ mc.map Prod.fst, ∃ s, k = CacheKey.hexStr s)
    (p : List (String × String)) (resp : JVal) (store_now : Int)
    (q : List (String × String)) (lookup_now expire : Int) :
    (getCachedMem (cacheStoreMem mc p resp store_now) q lookup_now expire).1 = none ∧
    cacheStoreKey p ≠ cacheLookupKey q := by
  constructor
  · simp only [getCachedMem]
    apply alookup_eq_none
    intro kv hkv
    have hkv2 : kv ∈ cacheStoreMem mc p resp store_now := List.mem_of_mem_filter hkv
    rcases dinsert_mem_pair mc (cacheStoreKey p) (resp, store_now) kv hkv2 with h | h
    · obtain ⟨s, hs⟩ := hmc kv.1 (List.mem_map_of_mem Prod.fst h)
      rw [hs]
      exact fun hh => CacheKey.noConfusion hh
    · rw [h]
      exact fun hh => CacheKey.noConfusion hh
  · exact fun hh => CacheKey.noConfusion hh

theorem cache_lookup_never_hits_witness :
    (getCachedMem
      (cacheStoreMem [] [("format", "json"), ("method", "vimeo.test"), ("oauth_nonce", "n1")]
        (JVal.str "cached") 0)
      [("format", "json"), ("method", "vimeo.test"), ("oauth_nonce", "n2")] 1 600).1 = none :=
  (cache_lookup_never_hits [] (by simp)
    [("format", "json"), ("method", "vimeo.test"), ("oauth_nonce", "n1")]
    (JVal.str "cached") 0
    [("format", "json"), ("method", "vimeo.test"), ("oauth_nonce", "n2")] 1 600).1

theorem alookup_perm {κ α : Type} [DecidableEq κ] {l₁ l₂ : List (κ × α)} (h : l₁.Perm l₂) :
    (l₁.map Prod.fst).Nodup → ∀ k, alookup l₁ k = alookup l₂ k := by
  induction h with
  | nil => intro _ k; rfl
  | cons x h' ih =>
    intro nd k
    obtain ⟨a, b⟩ := x
    simp only [List.map_cons, List.nodup_cons] at nd
    simp only [alookup]
    split
    · rfl
    · exact ih nd.2 k
  | swap x y l =>
    intro nd k
    obtain ⟨a, b⟩ := x
    obtain ⟨c, d⟩ := y
    simp only [List.map_cons, List.nodup_cons, List.mem_cons] at nd
    have hne : c ≠ a := fun hh => nd.1 (Or.inl hh)
    simp only [alookup]
    split_ifs with h1 h2 h2
    · exact absurd (h1.trans h2.symm) hne
    · rfl
    · rfl
    · rfl
  | trans h12 h23 ih1 ih2 =>
    intro nd k
    exact (ih1 nd k).trans (ih2 ((h12.map Prod.fst).nodup_iff.mp nd) k)

theorem keys_map_snd {α β γ : Type} (f : β → γ) (l : List (α × β)) :
    (l.map fun kv => (kv.1, f kv.2)).map Prod.fst = l.map Prod.fst := by
  induction l with
  | nil => rfl
  | cons hd t ih => simp [ih]

/-- C1: `_generate_signature` is insertion-order independent — two
parameter dicts holding exactly the same key/value pairs (in any iteration
order) produce byte-for-byte the same signature for every HTTP verb, URL,
consumer secret and (possibly absent) token secret, because the base
string is built from the parameters sorted by key. -/
theorem generate_signature_order_indep (p₁ p₂ : List (String × String))
    (request_method url consumer_secret : String) (token_secret : Option String)
    (hperm : p₁.Perm p₂) (hnd : (p₁.map Prod.fst).Nodup) :
    generate_signature p₁ request_method url consumer_secret token_secret =
      generate_signature p₂ request_method url consumer_secret token_secret := by
  have hkeysperm : (p₁.map Prod.fst).Perm (p₂.map Prod.fst) := hperm.map Prod.fst
  have hkeys : List.insertionSort (fun a b : String => a ≤ b) (p₁.map Prod.fst) =
      List.insertionSort (fun a b : String => a ≤ b) (p₂.map Prod.fst) := by
    apply List.eq_of_perm_of_sorted (r := fun a b : String => a ≤ b)
    · exact ((List.perm_insertionSort _ _).trans hkeysperm).trans
        (List.perm_insertionSort _ _).symm
    · exact List.sorted_insertionSort _ _
    · exact List.sorted_insertionSort _ _
  have hqperm : (p₁.map fun kv => (kv.1, pyQuote kv.2)).Perm
      (p₂.map fun kv => (kv.1, pyQuote kv.2)) := hperm.map _
  have hqnd : ((p₁.map fun kv => (kv.1, pyQuote kv.2)).map Prod.fst).Nodup := by
    rw [keys_map_snd]
    exact hnd
  have hlook := alookup_perm hqperm hqnd
  have hfun : (fun k => (k, (alookup (p₁.map fun kv => (kv.1, pyQuote kv.2)) k).getD "")) =
      (fun k => (k, (alookup (p₂.map fun kv => (kv.1, pyQuote kv.2)) k).getD "")) :=
    funext fun k => by rw [hlook k]
  simp only [generate_signature]
  rw [hkeys, hfun]

theorem generate_signature_order_indep_witness :
    generate_signature [("oauth_nonce", "n"), ("format", "json")]
        "GET" API_REST_URL "secret" none =
      generate_signature [("format", "json"), ("oauth_nonce", "n")]
        "GET" API_REST_URL "secret" none :=
  generate_signature_order_indep _ _ _ _ _ _ (by decide) (by decide)

/-- C9: `get_access_token` returns the access-token response parsed into a
mapping (whenever the broken file cache backend is not enabled, in which
case the cache-key slip of `_get_cached` raises) and never touches the
client's active token or token secret — the returned pair becomes the
active token only through an explicit later `set_token`, which is the
operation that overwrites the token fields. -/
theorem get_access_token_spec (st : ClientState) (verifier timestamp nonce : String)
    (now : Int) (body : String) :
    (get_access_token st verifier timestamp nonce now body).2.token = st.token ∧
    (get_access_token st verifier timestamp nonce now body).2.token_secret = st.token_secret ∧
    (st.cache_enabled ≠ some CacheBackend.file →
      (get_access_token st verifier timestamp nonce now body).1 =
        .ok (parse_token_string body)) ∧
    (∀ t s,
      (set_token (get_access_token st verifier timestamp nonce now body).2 t s).token = some t ∧
      (set_token (get_access_token st verifier timestamp nonce now body).2 t s).token_secret =
        some s) := by
  cases h : st.cache_enabled with
  | none =>
    refine ⟨?_, ?_, fun _ => ?_, fun t s => ⟨?_, ?_⟩⟩ <;>
      simp [get_access_token, requestTokenEndpoint, h, set_token]
  | some b =>
    cases b with
    | memory =>
      refine ⟨?_, ?_, fun _ => ?_, fun t s => ⟨?_, ?_⟩⟩ <;>
        simp [get_access_token, requestTokenEndpoint, h, set_token]
    | file =>
      refine ⟨?_, ?_, fun habs => absurd rfl habs, fun t s => ⟨?_, ?_⟩⟩ <;>
        simp [get_access_token, requestTokenEndpoint, h, set_token]

theorem get_access_token_spec_witness :
    (get_access_token ⟨"ck", "cs", some "rt", some "rts", none, [], 600⟩
      "ver" "1" "nonce" 0 "oauth_token=tok&oauth_token_secret=sec").2.token = some "rt" ∧
    (get_access_token ⟨"ck", "cs", some "rt", some "rts", none, [], 600⟩
      "ver" "1" "nonce" 0 "oauth_token=tok&oauth_token_secret=sec").1 =
      .ok (parse_token_string "oauth_token=tok&oauth_token_secret=sec") :=
  ⟨(get_access_token_spec ⟨"ck", "cs", some "rt", some "rts", none, [], 600⟩
      "ver" "1" "nonce" 0 "oauth_token=tok&oauth_token_secret=sec").1,
   (get_access_token_spec ⟨"ck", "cs", some "rt", some "rts", none, [], 600⟩
      "ver" "1" "nonce" 0 "oauth_token=tok&oauth_token_secret=sec").2.2.1 (by simp)⟩

theorem item_of_getAttrD {v : JVal} {k : String} {x : JVal}
    (h : v.getAttrD k = .ok (some x)) : v.item k = .ok x := by
  cases v <;> simp_all [JVal.getAttrD, JVal.item]

/-- C2: whenever the quota response reports a free upload space smaller
than the file size, `upload` raises the quota-exceeded `VimeoAPIError`
with code 707 immediately after the `getQuota` call: the whole transport
trace is that single call, so no `getTicket` call and no data PUT ever
happen in the run. -/
theorem upload_quota_exceeded (t : String → JVal) (file_size : Int) (file_name : String)
    (replace_id : Option String) (quota_free : JVal)
    (hstat : (t "vimeo.videos.upload.getQuota").getAttrD "stat" = .ok (some (.str "ok")))
    (hfree : quotaFreeOf (t "vimeo.videos.upload.getQuota") = .ok quota_free)
    (hlt : pyLtJInt quota_free file_size = true) :
    upload t file_size file_name replace_id =
      (.error (.api ⟨"vimeo.videos.upload.getQuota", .num 707,
        .str "The file is larger than the user\x27s remaining quota."⟩),
       [Ev.call "vimeo.videos.upload.getQuota"]) ∧
    ∀ e ∈ (upload t file_size file_name replace_id).2,
      e ≠ Ev.call "vimeo.videos.upload.getTicket" ∧ ∀ ep, e ≠ Ev.put ep := by
  have hm1 : callMethodName "vimeo.videos.upload.getQuota" =
      "vimeo.videos.upload.getQuota" := rfl
  have h1 : upload t file_size file_name replace_id =
      (.error (.api ⟨"vimeo.videos.upload.getQuota", .num 707,
        .str "The file is larger than the user\x27s remaining quota."⟩),
       [Ev.call "vimeo.videos.upload.getQuota"]) := by
    simp only [upload, hm1, requestJson, hstat, hfree, hlt, jOptEqStr,
      beq_self_eq_true, if_true]
  refine ⟨h1, ?_⟩
  intro e he
  rw [h1] at he
  simp only [List.mem_singleton] at he
  subst he
  constructor
  · intro hh
    injection hh with hs
    exact absurd hs (by decide)
  · intro ep hh
    exact Ev.noConfusion hh

theorem upload_quota_exceeded_witness :
    upload (fun _ => JVal.obj [("stat", .str "ok"),
        ("user", .obj [("upload_space", .obj [("free", .num 10)])])]) 100 "movie.mp4" none =
      (.error (.api ⟨"vimeo.videos.upload.getQuota", .num 707,
        .str "The file is larger than the user\x27s remaining quota."⟩),
       [Ev.call "vimeo.videos.upload.getQuota"]) :=
  (upload_quota_exceeded (fun _ => JVal.obj [("stat", .str "ok"),
      ("user", .obj [("upload_space", .obj [("free", .num 10)])])]) 100 "movie.mp4" none
    (.num 10) rfl rfl (by decide)).1

/-- C3: when the chunk size reported by `verifyChunks` differs from the
transferred byte count but the `complete` response has status `ok`,
`upload` does not raise: it returns the pair of the video id and a
non-empty error list holding the integrity error, with all five transport
interactions (quota, ticket, PUT, verify, complete) on the trace. -/
theorem upload_integrity_mismatch_ok (t : String → JVal) (file_size : Int)
    (file_name : String) (replace_id : Option String)
    (quota_free ticket endpoint max_file_size info sizeJ iid vid : JVal) (sz : Int)
    (hstat1 : (t "vimeo.videos.upload.getQuota").getAttrD "stat" = .ok (some (.str "ok")))
    (hfree : quotaFreeOf (t "vimeo.videos.upload.getQuota") = .ok quota_free)
    (hge : pyLtJInt quota_free file_size = false)
    (hstat2 : (t "vimeo.videos.upload.getTicket").getAttrD "stat" = .ok (some (.str "ok")))
    (htid : ((t "vimeo.videos.upload.getTicket").item "ticket").bind
      (fun tk => tk.item "id") = .ok ticket)
    (hep : ((t "vimeo.videos.upload.getTicket").item "ticket").bind
      (fun tk => tk.item "endpoint") = .ok endpoint)
    (hmax : ((t "vimeo.videos.upload.getTicket").item "ticket").bind
      (fun tk => tk.item "max_file_size") = .ok max_file_size)
    (hfit : pyGtIntJ file_size max_file_size = false)
    (hstat3 : (t "vimeo.videos.upload.verifyChunks").getAttrD "stat" = .ok (some (.str "ok")))
    (hinfo : verifyChunkOf (t "vimeo.videos.upload.verifyChunks") = .ok info)
    (hsize : info.item "size" = .ok sizeJ)
    (hint : pyIntOfJ sizeJ = .ok sz)
    (hne : sz ≠ file_size)
    (hid : info.item "id" = .ok iid)
    (hstat4 : (t "vimeo.videos.upload.complete").getAttrD "stat" = .ok (some (.str "ok")))
    (hvid : completeVideoIdOf (t "vimeo.videos.upload.complete") = .ok vid) :
    upload t file_size file_name replace_id =
      (.ok (vid, [⟨"", .str "", .str (integrityMsg iid sizeJ)⟩]),
       [Ev.call "vimeo.videos.upload.getQuota", Ev.call "vimeo.videos.upload.getTicket",
        Ev.put (pyStrJ endpoint), Ev.call "vimeo.videos.upload.verifyChunks",
        Ev.call "vimeo.videos.upload.complete"]) ∧
    ([⟨"", .str "", .str (integrityMsg iid sizeJ)⟩] : List VErr) ≠ [] := by
  have hm1 : callMethodName "vimeo.videos.upload.getQuota" =
      "vimeo.videos.upload.getQuota" := rfl
  have hm2 : callMethodName "vimeo.videos.upload.getTicket" =
      "vimeo.videos.upload.getTicket" := rfl
  have hm3 : callMethodName "vimeo.videos.upload.verifyChunks" =
      "vimeo.videos.upload.verifyChunks" := rfl
  have hm4 : callMethodName "vimeo.videos.upload.complete" =
      "vimeo.videos.upload.complete" := rfl
  have hcstat : (t "vimeo.videos.upload.complete").item "stat" = .ok (.str "ok") :=
    item_of_getAttrD hstat4
  refine ⟨?_, by simp⟩
  simp only [upload, hm1, hm2, hm3, hm4, requestJson, hstat1, hstat2, hstat3, hstat4,
    hfree, hge, htid, hep, hmax, hfit, hinfo, hsize, hint, hid, hcstat, hvid,
    jOptEqStr, jEqStr, beq_self_eq_true, if_true, hne, if_neg,
    Bool.false_eq_true, if_false, List.append_assoc, List.cons_append, List.nil_append]

/-- A concrete stub transport: ample quota, a ticket allowing 500 bytes, a
verify response reporting 99 bytes for a 100-byte upload, and an `ok`
completion. -/
def uploadStubT : String → JVal := fun m =>
  if m = "vimeo.videos.upload.getQuota" then
    .obj [("stat", .str "ok"), ("user", .obj [("upload_space", .obj [("free", .num 1000)])])]
  else if m = "vimeo.videos.upload.getTicket" then
    .obj [("stat", .str "ok"),
          ("ticket", .obj [("id", .str "T1"), ("endpoint", .str "http://upload.test"),
                           ("max_file_size", .num 500)])]
  else if m = "vimeo.videos.upload.verifyChunks" then
    .obj [("stat", .str "ok"),
          ("ticket", .obj [("chunks", .obj [("chunk",
            .obj [("id", .str "0"), ("size", .num 99)])])])]
  else
    .obj [("stat", .str "ok"), ("ticket", .obj [("video_id", .str "V9")])]

theorem upload_integrity_mismatch_ok_witness :
    upload uploadStubT 100 "movie.mp4" none =
      (.ok (.str "V9",
        [⟨"", .str "", .str "File chunk id 0 is 99 bytes but 99 were uploaded"⟩]),
       [Ev.call "vimeo.videos.upload.getQuota", Ev.call "vimeo.videos.upload.getTicket",
        Ev.put "http://upload.test", Ev.call "vimeo.videos.upload.verifyChunks",
        Ev.call "vimeo.videos.upload.complete"]) :=
  (upload_integrity_mismatch_ok uploadStubT 100 "movie.mp4" none
    (.num 1000) (.str "T1") (.str "http://upload.test") (.num 500)
    (.obj [("id", .str "0"), ("size", .num 99)]) (.num 99) (.str "0") (.str "V9") 99
    rfl rfl (by decide) rfl rfl rfl rfl (by decide) rfl rfl rfl rfl (by decide)
    rfl rfl rfl).1
